import Mathlib

/-!
Shallow embedding of the `seer` error-annotation library (src/seer.go).

The Go package keeps three process-wide globals (`collectStackTrace`,
`defaultCode`, `defaultMessage`); here they are an explicit `Config` value
passed to every function that reads them in the source.  The runtime
introspection `getRuntimeInfo` is modelled by a `RuntimeInfo` value supplied
to the constructors: it stands for the triple the Go function would return
(its failure case is the triple `("", "", 0)`, matching the source's
fallback).  A Go `error` interface value stored in `originalError` is
modelled by `ErrRef`: Go `nil`, a non-Seer error rendering to some text, or
a `*Seer`.
-/

structure Config where
  collectStackTrace : Bool
  defaultCode : Int
  defaultMessage : String

/-- Initial values of the package globals in src/seer.go. -/
def initialConfig : Config :=
  { collectStackTrace := true, defaultCode := 500, defaultMessage := "an error occurred" }

/-- What `getRuntimeInfo` would return at a given call site. -/
structure RuntimeInfo where
  caller : String
  file : String
  line : Int

mutual

inductive ErrRef where
  | nilErr : ErrRef
  | plain : String → ErrRef
  | seer : Seer → ErrRef

inductive Seer where
  | mk : String → ErrRef → String → Int → String → String → Int → Seer

end

def Seer.op : Seer → String
  | .mk v _ _ _ _ _ _ => v

def Seer.originalError : Seer → ErrRef
  | .mk _ v _ _ _ _ _ => v

def Seer.message : Seer → String
  | .mk _ _ v _ _ _ _ => v

def Seer.code : Seer → Int
  | .mk _ _ _ v _ _ _ => v

def Seer.caller : Seer → String
  | .mk _ _ _ _ v _ _ => v

def Seer.file : Seer → String
  | .mk _ _ _ _ _ v _ => v

def Seer.line : Seer → Int
  | .mk _ _ _ _ _ _ v => v

/-- Go `s.originalError != nil` is `s.originalError.isNil = false`. -/
def ErrRef.isNil : ErrRef → Bool
  | .nilErr => true
  | _ => false

mutual

/-- Rendering of a Go `error` value via its `Error()` method: the text of a
plain error, or `Seer.Error` for a wrapped `*Seer`.  Never invoked on
`nilErr` by the source (every call site guards on `!= nil`). -/
def ErrRef.errorText (cfg : Config) : ErrRef → String
  | .nilErr => ""
  | .plain t => t
  | .seer s => Seer.Error cfg s

/-- `func (s *Seer) Error() string` (src/seer.go:61-67). -/
def Seer.Error (cfg : Config) : Seer → String
  | .mk _ orig msg _ _ _ _ =>
      if msg = cfg.defaultMessage ∧ orig.isNil = false then ErrRef.errorText cfg orig
      else msg

end

/-- `func (s *Seer) Code() int` (src/seer.go:40-46). -/
def Seer.Code (cfg : Config) (s : Seer) : Int :=
  if s.code = 0 then cfg.defaultCode else s.code

/-- `func (s *Seer) WithCode(code int) *Seer` (src/seer.go:49-57). -/
def Seer.WithCode (s : Seer) (code : Int) : Seer :=
  if code < 100 ∨ code > 599 then s
  else match s with
    | .mk o orig msg _ c f l => .mk o orig msg code c f l

/-- `func (s *Seer) Message() string` (src/seer.go:70-72). -/
def Seer.Message (s : Seer) : String := s.message

/-- `func (s *Seer) Operation() string` (src/seer.go:75-77). -/
def Seer.Operation (s : Seer) : String := s.op

/-- `func (s *Seer) ErrorWithStackTrace() string` (src/seer.go:85-106). -/
def Seer.ErrorWithStackTrace (cfg : Config) (s : Seer) : String :=
  if cfg.collectStackTrace then
    let callerName := s.caller
    let originalError := if s.originalError.isNil then "" else ErrRef.errorText cfg s.originalError
    s.file ++ ":" ++ toString s.line ++ " (" ++ callerName ++ "::" ++ s.op ++ "): "
      ++ s.message ++ ", original_err=" ++ originalError
  else
    s.op ++ ": " ++ s.message

/-- `func (s *Seer) UnwrapError() (error, bool)` (src/seer.go:109-112): the
boolean is the Go type assertion `s.originalError.(*Seer)` succeeding. -/
def Seer.UnwrapError (s : Seer) : ErrRef × Bool :=
  (s.originalError, match s.originalError with | .seer _ => true | _ => false)

/-- `func (s *Seer) String() string` (src/seer.go:115-132), the `fmt.Stringer`
method; named `Stringer` here because `Seer.String` would shadow the string
type inside the `Seer` namespace. -/
def Seer.Stringer (cfg : Config) (s : Seer) : String :=
  let front :=
    if cfg.collectStackTrace then
      s.file ++ ":" ++ toString s.line ++ " (" ++ s.caller ++ "::" ++ s.op ++ ")"
    else
      s.op ++ ": " ++ s.message
  if s.originalError.isNil then front
  else front ++ "\n\tWrapped error: " ++ ErrRef.errorText cfg s.originalError

/-- Values of the JSON object produced by `MarshalJSON`. -/
inductive JValue where
  | jstr : String → JValue
  | jint : Int → JValue
deriving DecidableEq

/-- `func (s *Seer) MarshalJSON() ([]byte, error)` (src/seer.go:135-152),
as the key/value pairs inserted into the Go map (key order irrelevant,
all keys distinct). -/
def Seer.MarshalJSON (cfg : Config) (s : Seer) : List (String × JValue) :=
  [("operation", JValue.jstr s.op), ("message", JValue.jstr s.message)]
  ++ (if cfg.collectStackTrace = true ∧ (s.caller ≠ "" ∨ s.file ≠ "" ∨ s.line ≠ 0) then
        [("caller", JValue.jstr s.caller), ("file", JValue.jstr s.file),
         ("line", JValue.jint s.line)]
      else [])
  ++ (if s.originalError.isNil then []
      else [("previous_error", JValue.jstr (ErrRef.errorText cfg s.originalError))])

/-- The key set of the JSON object. -/
def Seer.jsonKeys (cfg : Config) (s : Seer) : List String :=
  (Seer.MarshalJSON cfg s).map Prod.fst

/-- `func New(operation string, message string, code ...int) *Seer`
(src/seer.go:160-190).  Note the source defaults `errCode` to the literal
`500`, not to the global `defaultCode`. -/
def New (cfg : Config) (ri : RuntimeInfo) (operation : String) (message : String)
    (code : Option Int) : Seer :=
  let caller := if cfg.collectStackTrace then ri.caller else ""
  let file := if cfg.collectStackTrace then ri.file else ""
  let line := if cfg.collectStackTrace then ri.line else 0
  let errCode : Int :=
    match code with
    | some c => if c < 100 ∨ c > 599 then 500 else c
    | none => 500
  Seer.mk operation ErrRef.nilErr message errCode caller file line

/-- `func Wrap(op string, originalError error, customMessage ...string) *Seer`
(src/seer.go:201-215).  The `code` field keeps its zero value. -/
def Wrap (cfg : Config) (ri : RuntimeInfo) (op : String) (originalError : ErrRef)
    (customMessage : Option String) : Seer :=
  let message := match customMessage with | some m => m | none => cfg.defaultMessage
  let caller := if cfg.collectStackTrace then ri.caller else ""
  let file := if cfg.collectStackTrace then ri.file else ""
  let line := if cfg.collectStackTrace then ri.line else 0
  Seer.mk op originalError message 0 caller file line

/-- `func WrapWithStackTrace(operation string, originalError error, customMessage ...string) *Seer`
(src/seer.go:219-243): provenance is captured unconditionally. -/
def WrapWithStackTrace (cfg : Config) (ri : RuntimeInfo) (operation : String)
    (originalError : ErrRef) (customMessage : Option String) : Seer :=
  let message := match customMessage with | some m => m | none => cfg.defaultMessage
  Seer.mk operation originalError message 0 ri.caller ri.file ri.line

/-- Go `strings.TrimSpace`, modelled structurally over the character list so
that it evaluates in the kernel (Lean's `String.trim` is defined through
`Substring` auxiliaries that do not reduce). -/
def trimSpace (s : String) : String :=
  String.mk (((s.data.dropWhile Char.isWhitespace).reverse.dropWhile Char.isWhitespace).reverse)

/-- `func SetDefaultMessage(message string)` (src/seer.go:246-250). -/
def SetDefaultMessage (message : String) (cfg : Config) : Config :=
  if trimSpace message ≠ "" then { cfg with defaultMessage := message } else cfg

/-- `func SetCollectStackTrace(flag bool)` (src/seer.go:253-255). -/
def SetCollectStackTrace (flag : Bool) (cfg : Config) : Config :=
  { cfg with collectStackTrace := flag }

/-- `func SetDefaultCode(code int)` (src/seer.go:257-264). -/
def SetDefaultCode (code : Int) (cfg : Config) : Config :=
  if code < 100 ∨ code > 599 then cfg
  else { cfg with defaultCode := code }

/-- A concrete call site used by concrete scenarios below. -/
def ri0 : RuntimeInfo := { caller := "main.run", file := "main.go", line := 42 }

/-- Configuration after `SetCollectStackTrace(false)` on the initial globals. -/
def cfgNoCollect : Config := SetCollectStackTrace false initialConfig

/-- Configuration after `SetDefaultCode(400)` on the initial globals. -/
def cfg400 : Config := SetDefaultCode 400 initialConfig

/-- The provenance part shared by `ErrorWithStackTrace` and `Stringer` when the
collect flag is on, up to but not including the closing parenthesis. -/
def provFront (s : Seer) : String :=
  s.file ++ ":" ++ toString s.line ++ " (" ++ s.caller ++ "::" ++ s.op

/-- The wrapped-error line `Stringer` appends when an original error exists. -/
def wrappedSuffix (cfg : Config) (s : Seer) : String :=
  if s.originalError.isNil then "" else "\n\tWrapped error: " ++ ErrRef.errorText cfg s.originalError

/-- The text `ErrorWithStackTrace` renders for the original error. -/
def origStr (cfg : Config) (s : Seer) : String :=
  if s.originalError.isNil then "" else ErrRef.errorText cfg s.originalError

/-! Claim theorems. -/

/-- C1 counterexample: after `SetDefaultCode(400)`, an error built by
`New("validate", "bad input")` with the code argument omitted has
`Code() = 500`, not the process default `400`: `New` defaults the stored
code to the literal `500` and never reads `defaultCode`. -/
theorem C1_counterexample :
    Seer.Code cfg400 (New cfg400 ri0 "validate" "bad input" Option.none) = 500 ∧
    Seer.Code cfg400 (New cfg400 ri0 "validate" "bad input" Option.none) ≠ 400 := by
  decide

/-- C1 (amended): when `New`'s optional code argument is omitted, or supplied
outside `[100, 599]`, the stored code is the constant `500` — independent of
the process-wide default code, whether at construction or at the `Code()`
call; a supplied in-range code is stored as-is. -/
theorem C1_amended (cfgC cfgR : Config) (ri : RuntimeInfo) (operation message : String) :
    Seer.Code cfgR (New cfgC ri operation message Option.none) = 500 ∧
    (∀ c : Int, (c < 100 ∨ 599 < c) →
      Seer.Code cfgR (New cfgC ri operation message (some c)) = 500) ∧
    (∀ c : Int, 100 ≤ c → c ≤ 599 →
      Seer.Code cfgR (New cfgC ri operation message (some c)) = c) := by
  refine ⟨?_, ?_, ?_⟩
  · simp [New, Seer.Code, Seer.code]
  · intro c h
    have hc : c < 100 ∨ c > 599 := by omega
    simp [New, Seer.Code, Seer.code, hc]
  · intro c h1 h2
    have hc : ¬(c < 100 ∨ c > 599) := by omega
    have hne : ¬(c = 0) := by omega
    simp [New, Seer.Code, Seer.code, hc, hne]

/-- C1 witness: the amended claim evaluated at the spec's scenario inputs with
the out-of-range code `9999`. -/
theorem C1_amended_witness :
    Seer.Code cfg400 (New cfg400 ri0 "validate" "bad input" (some 9999)) = 500 := by
  exact (C1_amended cfg400 cfg400 ri0 "validate" "bad input").2.1 9999 (by omega)

/-- C2 counterexample: `New` stores an explicitly empty caller-supplied message
verbatim, so `Message()` returns the empty string — there is no fallback for
empty (as opposed to omitted) messages. -/
theorem C2_counterexample :
    Seer.Message (New initialConfig ri0 "op" "" Option.none) = "" := by
  decide

/-- C2 (amended): `Wrap` and `WrapWithStackTrace` fall back to the process
default message only when the message argument is omitted, in which case
`Message()` is non-empty whenever the default message is (the initial default
is non-empty and `SetDefaultMessage` never installs an empty one); `New` and
an explicitly supplied `Wrap` message are stored verbatim, so `Message()` can
be empty for those paths. -/
theorem C2_amended (cfg : Config) (ri : RuntimeInfo) (op : String) (orig : ErrRef) :
    Seer.Message (Wrap cfg ri op orig Option.none) = cfg.defaultMessage ∧
    Seer.Message (WrapWithStackTrace cfg ri op orig Option.none) = cfg.defaultMessage ∧
    (cfg.defaultMessage ≠ "" → Seer.Message (Wrap cfg ri op orig Option.none) ≠ "") ∧
    (cfg.defaultMessage ≠ "" → Seer.Message (WrapWithStackTrace cfg ri op orig Option.none) ≠ "") ∧
    (∀ message code, Seer.Message (New cfg ri op message code) = message) ∧
    (∀ m, Seer.Message (Wrap cfg ri op orig (some m)) = m) ∧
    (∀ m, cfg.defaultMessage ≠ "" → (SetDefaultMessage m cfg).defaultMessage ≠ "") := by
  refine ⟨?_, ?_, ?_, ?_, ?_, ?_, ?_⟩
  · simp [Wrap, Seer.Message, Seer.message]
  · simp [WrapWithStackTrace, Seer.Message, Seer.message]
  · intro h
    simpa [Wrap, Seer.Message, Seer.message] using h
  · intro h
    simpa [WrapWithStackTrace, Seer.Message, Seer.message] using h
  · intro message code
    simp [New, Seer.Message, Seer.message]
  · intro m
    simp [Wrap, Seer.Message, Seer.message]
  · intro m h
    unfold SetDefaultMessage
    split
    · next ht =>
      intro hm
      have hm' : m = "" := hm
      exact ht (by rw [hm']; decide)
    · exact h

/-- C2 witness: the amended claim evaluated at a concrete wrap with the message
omitted under the initial (non-empty) default message. -/
theorem C2_amended_witness :
    Seer.Message (Wrap initialConfig ri0 "loadConfig" (ErrRef.plain "io") Option.none) ≠ "" := by
  exact (C2_amended initialConfig ri0 "loadConfig" (ErrRef.plain "io")).2.2.1 (by decide)

/-- C6: `Error()` returns the original error's rendered text exactly when the
stored message equals the process default message and an original error is
present; in every other case it returns the stored message. -/
theorem C6 (cfg : Config) (s : Seer) :
    (s.message = cfg.defaultMessage → s.originalError.isNil = false →
      Seer.Error cfg s = ErrRef.errorText cfg s.originalError) ∧
    (s.message ≠ cfg.defaultMessage → Seer.Error cfg s = s.message) ∧
    (s.originalError.isNil = true → Seer.Error cfg s = s.message) := by
  cases s with
  | mk o orig msg k cal f l =>
    refine ⟨?_, ?_, ?_⟩
    · intro h1 h2
      simp [Seer.Error, Seer.message, Seer.originalError] at *
      simp [h1, h2]
    · intro h1
      simp [Seer.Error, Seer.message, Seer.originalError] at *
      simp [h1]
    · intro h1
      simp [Seer.Error, Seer.message, Seer.originalError] at *
      simp [h1]

/-- C6 witness: a wrap of a plain error with the message omitted keeps the
default message, so `Error()` surfaces the original error's text. -/
theorem C6_witness :
    Seer.Error initialConfig
      (Wrap initialConfig ri0 "loadConfig" (ErrRef.plain "io") Option.none) = "io" := by
  have h :=
    (C6 initialConfig (Wrap initialConfig ri0 "loadConfig" (ErrRef.plain "io") Option.none)).1
      (by decide) (by decide)
  exact h.trans (by decide)

/-- C7: for every code in `[100, 599]`, `WithCode` stores it and the
subsequent `Code()` returns it; for every code outside that range, `WithCode`
returns the value unchanged (the warning is only logged). -/
theorem C7 (s : Seer) (c : Int) (cfg : Config) :
    (100 ≤ c → c ≤ 599 → Seer.Code cfg (s.WithCode c) = c) ∧
    ((c < 100 ∨ 599 < c) → s.WithCode c = s) := by
  constructor
  · intro h1 h2
    have hc : ¬(c < 100 ∨ c > 599) := by omega
    have hne : ¬(c = 0) := by omega
    cases s with
    | mk o orig msg k cal f l =>
      simp [Seer.WithCode, hc, Seer.Code, Seer.code, hne]
  · intro h
    have hc : c < 100 ∨ c > 599 := by omega
    simp [Seer.WithCode, hc]

/-- C7 witness: an in-range and an out-of-range `WithCode` call on a concrete
error. -/
theorem C7_witness :
    Seer.Code initialConfig ((New initialConfig ri0 "x" "y" Option.none).WithCode 404) = 404 ∧
    (New initialConfig ri0 "x" "y" Option.none).WithCode 9999
      = New initialConfig ri0 "x" "y" Option.none := by
  constructor
  · exact (C7 (New initialConfig ri0 "x" "y" Option.none) 404 initialConfig).1 (by omega) (by omega)
  · exact (C7 (New initialConfig ri0 "x" "y" Option.none) 9999 initialConfig).2 (by omega)

/-- C8: `UnwrapError` on a value built via `Wrap` with an inner `Seer` returns
that inner error and `true`; with a plain (non-annotated) inner error it
returns that error and `false`. -/
theorem C8 (cfg : Config) (ri : RuntimeInfo) (op : String) (mo : Option String) :
    (∀ inner : Seer,
      Seer.UnwrapError (Wrap cfg ri op (ErrRef.seer inner) mo) = (ErrRef.seer inner, true)) ∧
    (∀ t : String,
      Seer.UnwrapError (Wrap cfg ri op (ErrRef.plain t) mo) = (ErrRef.plain t, false)) := by
  constructor <;> intro x <;> simp [Wrap, Seer.UnwrapError, Seer.originalError]

/-- C9: `Wrap` and `WrapWithStackTrace` leave the stored code at its zero
value, so `Code()` reports the process-wide default code in effect at the
moment of the call — a later `SetDefaultCode` changes what such values report
— while `New` always stores a non-zero code, so its `Code()` never consults
the default. -/
theorem C9 (cfgC cfgR : Config) (ri : RuntimeInfo) (op : String) (orig : ErrRef)
    (mo : Option String) :
    (Wrap cfgC ri op orig mo).code = 0 ∧
    (WrapWithStackTrace cfgC ri op orig mo).code = 0 ∧
    Seer.Code cfgR (Wrap cfgC ri op orig mo) = cfgR.defaultCode ∧
    Seer.Code cfgR (WrapWithStackTrace cfgC ri op orig mo) = cfgR.defaultCode ∧
    (∀ c : Int, 100 ≤ c → c ≤ 599 →
      Seer.Code (SetDefaultCode c cfgR) (Wrap cfgC ri op orig mo) = c) ∧
    (∀ operation message copt,
      Seer.Code cfgR (New cfgC ri operation message copt)
        = (New cfgC ri operation message copt).code) := by
  refine ⟨?_, ?_, ?_, ?_, ?_, ?_⟩
  · simp [Wrap, Seer.code]
  · simp [WrapWithStackTrace, Seer.code]
  · simp [Wrap, Seer.Code, Seer.code]
  · simp [WrapWithStackTrace, Seer.Code, Seer.code]
  · intro c h1 h2
    have hc : ¬(c < 100 ∨ c > 599) := by omega
    simp [Wrap, Seer.Code, Seer.code, SetDefaultCode, hc]
  · intro operation message copt
    cases copt with
    | none => simp [New, Seer.Code, Seer.code]
    | some c =>
      by_cases hc : c < 100 ∨ c > 599
      · simp [New, Seer.Code, Seer.code, hc]
      · have hne : ¬(c = 0) := by omega
        simp [New, Seer.Code, Seer.code, hc, hne]

/-- C9 witness: a `Wrap`-built error constructed under the initial default
code reports `404` after `SetDefaultCode(404)`. -/
theorem C9_witness :
    Seer.Code (SetDefaultCode 404 initialConfig)
      (Wrap initialConfig ri0 "op" (ErrRef.plain "io") Option.none) = 404 := by
  exact (C9 initialConfig initialConfig ri0 "op" (ErrRef.plain "io") Option.none).2.2.2.2.1
    404 (by omega) (by omega)

/-- C10: `New` never attaches an original error, so `UnwrapError` returns the
nil error and `false`. -/
theorem C10 (cfg : Config) (ri : RuntimeInfo) (operation message : String) (code : Option Int) :
    Seer.UnwrapError (New cfg ri operation message code) = (ErrRef.nilErr, false) := by
  simp [New, Seer.UnwrapError, Seer.originalError]

/-- C3 counterexample: in the no-provenance branch `String()` does include the
message (the source writes `"%s: %s"` with `s.op, s.message` there), so two
errors differing only in their message render differently — the claim's
"WITHOUT the message in either branch" fails. -/
theorem C3_counterexample :
    Seer.Stringer cfgNoCollect (Wrap cfgNoCollect ri0 "op" ErrRef.nilErr (some "A")) = "op: A" ∧
    Seer.Stringer cfgNoCollect (Wrap cfgNoCollect ri0 "op" ErrRef.nilErr (some "B")) = "op: B" ∧
    Seer.Stringer cfgNoCollect (Wrap cfgNoCollect ri0 "op" ErrRef.nilErr (some "A"))
      ≠ Seer.Stringer cfgNoCollect (Wrap cfgNoCollect ri0 "op" ErrRef.nilErr (some "B")) := by
  decide

/-- C3 (amended): with the collect flag on, `String()` is `detailedString()`'s
provenance prefix `"<file>:<line> (<caller>::<operation>)"` without the
message; with the flag off it coincides with `detailedString()`'s
`"<operation>: <message>"`, message included; in both cases
`"\n\tWrapped error: <originalErrorText>"` is appended exactly when an
original error exists. -/
theorem C3_amended :
    (∀ cfg s, cfg.collectStackTrace = true →
      Seer.Stringer cfg s = provFront s ++ ")" ++ wrappedSuffix cfg s ∧
      Seer.ErrorWithStackTrace cfg s
        = provFront s ++ "): " ++ s.message ++ ", original_err=" ++ origStr cfg s) ∧
    (∀ cfg s, cfg.collectStackTrace = false →
      Seer.Stringer cfg s = Seer.ErrorWithStackTrace cfg s ++ wrappedSuffix cfg s) := by
  constructor
  · intro cfg s h
    cases s with
    | mk o orig msg k cal f l =>
      constructor
      · cases horig : ErrRef.isNil orig with
        | true =>
          simp [Seer.Stringer, provFront, wrappedSuffix, Seer.originalError, Seer.op, Seer.file,
            Seer.line, Seer.caller, Seer.message, h, horig, String.append_empty]
        | false =>
          simp [Seer.Stringer, provFront, wrappedSuffix, Seer.originalError, Seer.op, Seer.file,
            Seer.line, Seer.caller, Seer.message, h, horig, String.append_assoc]
          rw [show (")\n\tWrapped error: " : String) = ")" ++ "\n\tWrapped error: " from rfl,
            String.append_assoc]
      · simp [Seer.ErrorWithStackTrace, provFront, origStr, Seer.originalError, Seer.op, Seer.file,
          Seer.line, Seer.caller, Seer.message, h, String.append_assoc]
  · intro cfg s h
    cases s with
    | mk o orig msg k cal f l =>
      cases horig : ErrRef.isNil orig with
      | true =>
        simp [Seer.Stringer, Seer.ErrorWithStackTrace, wrappedSuffix, Seer.originalError, Seer.op,
          Seer.message, h, horig, String.append_empty]
      | false =>
        simp [Seer.Stringer, Seer.ErrorWithStackTrace, wrappedSuffix, Seer.originalError, Seer.op,
          Seer.message, h, horig, String.append_assoc]

/-- C3 witness: the amended claim evaluated at a concrete wrap of a plain
error under the initial configuration (collect flag on). -/
theorem C3_amended_witness :
    Seer.Stringer initialConfig
        (Wrap initialConfig ri0 "loadConfig" (ErrRef.plain "io") Option.none)
      = "main.go:42 (main.run::loadConfig)\n\tWrapped error: io" := by
  have h := (C3_amended.1 initialConfig
    (Wrap initialConfig ri0 "loadConfig" (ErrRef.plain "io") Option.none) (by decide)).1
  exact h.trans (by decide)

/-- C4 counterexample: `ErrorWithStackTrace` branches on the collect flag at
the moment of the call, not on whether provenance was captured at
construction: a value built under `SetCollectStackTrace(false)` (so with no
provenance captured) but rendered with the flag back on produces the detailed
form with empty fields, not the claimed `"<operation>: <message>"`. -/
theorem C4_counterexample :
    Seer.ErrorWithStackTrace initialConfig
        (Wrap cfgNoCollect ri0 "loadConfig" (ErrRef.plain "io") Option.none)
      = ":0 (::loadConfig): an error occurred, original_err=io" ∧
    Seer.ErrorWithStackTrace initialConfig
        (Wrap cfgNoCollect ri0 "loadConfig" (ErrRef.plain "io") Option.none)
      ≠ "loadConfig: an error occurred" := by
  decide

/-- C4 (amended): `detailedString()` branches on the collect-provenance flag
in effect when it is called; when the flag is unchanged since construction
(the spec's set-once regime) this coincides with the claim: a `Wrap` under the
flag off renders `"<operation>: <message>"` — in particular the
`setCollectProvenance(false); wrap("loadConfig", ioErr)` scenario yields
`"loadConfig: an error occurred"` — and under the flag on it renders
`"<file>:<line> (<caller>::<operation>): <message>, original_err=<text-or-empty>"`. -/
theorem C4_amended :
    Seer.ErrorWithStackTrace cfgNoCollect
        (Wrap cfgNoCollect ri0 "loadConfig" (ErrRef.plain "io") Option.none)
      = "loadConfig: an error occurred" ∧
    (∀ cfg ri op orig mo, cfg.collectStackTrace = false →
      Seer.ErrorWithStackTrace cfg (Wrap cfg ri op orig mo)
        = op ++ ": " ++ (mo.getD cfg.defaultMessage)) ∧
    (∀ cfg ri op orig mo, cfg.collectStackTrace = true →
      Seer.ErrorWithStackTrace cfg (Wrap cfg ri op orig mo)
        = ri.file ++ ":" ++ toString ri.line ++ " (" ++ ri.caller ++ "::" ++ op ++ "): "
            ++ (mo.getD cfg.defaultMessage) ++ ", original_err="
            ++ (if orig.isNil then "" else ErrRef.errorText cfg orig)) := by
  refine ⟨by decide, ?_, ?_⟩
  · intro cfg ri op orig mo h
    cases mo <;>
      simp [Wrap, Seer.ErrorWithStackTrace, Seer.op, Seer.message, Seer.originalError,
        Seer.file, Seer.caller, Seer.line, h, Option.getD]
  · intro cfg ri op orig mo h
    cases mo <;>
      simp [Wrap, Seer.ErrorWithStackTrace, Seer.op, Seer.message, Seer.originalError,
        Seer.file, Seer.caller, Seer.line, h, Option.getD]

/-- C4 witness: the amended claim's detailed branch at a concrete call site. -/
theorem C4_amended_witness :
    Seer.ErrorWithStackTrace initialConfig
        (Wrap initialConfig ri0 "loadConfig" (ErrRef.plain "io") Option.none)
      = "main.go:42 (main.run::loadConfig): an error occurred, original_err=io" := by
  have h := C4_amended.2.2 initialConfig ri0 "loadConfig" (ErrRef.plain "io") Option.none
    (by decide)
  exact h.trans (by decide)

/-- The JSON key list, written with its three segments explicit. -/
theorem jsonKeys_eq (cfg : Config) (s : Seer) :
    Seer.jsonKeys cfg s
      = ["operation", "message"]
        ++ (if cfg.collectStackTrace = true ∧ (s.caller ≠ "" ∨ s.file ≠ "" ∨ s.line ≠ 0)
            then ["caller", "file", "line"] else [])
        ++ (if s.originalError.isNil then [] else ["previous_error"]) := by
  unfold Seer.jsonKeys Seer.MarshalJSON
  split <;> split <;> simp

/-- C5: `MarshalJSON` always emits `operation` and `message`; it emits
`caller`/`file`/`line` only when the collect flag is on and at least one of
the three provenance values is non-empty/non-zero — in particular a value
constructed by `New` or `Wrap` with collection disabled never gets those keys,
whatever the flag is later — and it emits `previous_error`, holding the
original error's rendered text (one level of flattening), iff an original
error exists. -/
theorem C5 :
    (∀ cfg s, ("operation", JValue.jstr s.op) ∈ Seer.MarshalJSON cfg s
      ∧ ("message", JValue.jstr s.message) ∈ Seer.MarshalJSON cfg s) ∧
    (∀ cfg s k, k ∈ ["caller", "file", "line"] → k ∈ Seer.jsonKeys cfg s →
      cfg.collectStackTrace = true ∧ (s.caller ≠ "" ∨ s.file ≠ "" ∨ s.line ≠ 0)) ∧
    (∀ cfgC cfgR ri operation message code k, cfgC.collectStackTrace = false →
      k ∈ ["caller", "file", "line"] →
      k ∉ Seer.jsonKeys cfgR (New cfgC ri operation message code)) ∧
    (∀ cfgC cfgR ri op orig mo k, cfgC.collectStackTrace = false →
      k ∈ ["caller", "file", "line"] →
      k ∉ Seer.jsonKeys cfgR (Wrap cfgC ri op orig mo)) ∧
    (∀ cfg s, "previous_error" ∈ Seer.jsonKeys cfg s ↔ s.originalError.isNil = false) ∧
    (∀ cfg s, s.originalError.isNil = false →
      ("previous_error", JValue.jstr (ErrRef.errorText cfg s.originalError))
        ∈ Seer.MarshalJSON cfg s) := by
  refine ⟨?_, ?_, ?_, ?_, ?_, ?_⟩
  · intro cfg s
    constructor <;> simp [Seer.MarshalJSON]
  · intro cfg s k hk hmem
    by_cases hcond : cfg.collectStackTrace = true ∧ (s.caller ≠ "" ∨ s.file ≠ "" ∨ s.line ≠ 0)
    · exact hcond
    · exfalso
      rw [jsonKeys_eq] at hmem
      cases horig : ErrRef.isNil s.originalError <;>
        simp [hcond, horig] at hmem <;> fin_cases hk <;> simp_all
  · intro cfgC cfgR ri operation message code k h hk
    rw [jsonKeys_eq]
    simp [New, Seer.caller, Seer.file, Seer.line, Seer.originalError, ErrRef.isNil, h]
    fin_cases hk <;> simp
  · intro cfgC cfgR ri op orig mo k h hk
    rw [jsonKeys_eq]
    cases horig : ErrRef.isNil orig <;>
      simp [Wrap, Seer.caller, Seer.file, Seer.line, Seer.originalError, h, horig] <;>
      fin_cases hk <;> simp
  · intro cfg s
    rw [jsonKeys_eq]
    by_cases hcond : cfg.collectStackTrace = true ∧ (s.caller ≠ "" ∨ s.file ≠ "" ∨ s.line ≠ 0) <;>
      cases horig : ErrRef.isNil s.originalError <;> simp [hcond, horig]
  · intro cfg s h
    simp [Seer.MarshalJSON, h]

/-- C5 witness: the construction-time omission clause evaluated at the spec's
scenario — a wrap built with collection disabled has no `caller` key. -/
theorem C5_witness :
    "caller" ∉ Seer.jsonKeys cfgNoCollect
      (Wrap cfgNoCollect ri0 "loadConfig" (ErrRef.plain "io") Option.none) := by
  exact C5.2.2.2.1 cfgNoCollect cfgNoCollect ri0 "loadConfig" (ErrRef.plain "io") Option.none
    "caller" (by decide) (by decide)
